import Mathlib

/-!
Verification of the gemini-server repository: the FastAPI HTTP service
(src/fastapi_server.py) and the UDP service (src/udp_server.py).

Shallow embedding conventions:
* JSON values are modelled by the inductive `Json` below; JSON numbers are
  modelled by `Int` (no claim involves fractional numbers).
* Python truthiness (`if x:`, `a or b`) is modelled by `Json.truthy`,
  `pyTruthy` and `pyOr`.
* `payload.get(k)` on a parsed JSON value is modelled by `dict_get`: it
  returns the stored value for objects and raises (models `AttributeError`)
  for any non-object, exactly as Python does.  Raised exceptions are the
  `Except.error` branch and are routed to the handlers' catch-all clauses.
* The HTTP body-decoding step (Starlette's `request.json()`) is abstracted
  as the handler input `BodyOutcome`, keeping its two distinct failure
  modes apart: `jsonError` is a `json.JSONDecodeError` (caught by the
  handlers' dedicated clauses), `decodeError` is a `UnicodeDecodeError`
  from undecodable bytes (not a `JSONDecodeError` subclass, so it escapes
  those clauses into the catch-alls), `ok payload` the decoded value.
* The UDP datagram-parsing step (`parse_message` = utf-8 decode +
  `json.loads`) is abstracted as the handler input `Option Json`: `none`
  is the decode/parse failure (the function catches both exceptions and
  returns None), `some payload` the decoded value.  The receive loop also
  records the Python truthiness of the raw bytes, because its `if data:`
  guard skips empty datagrams without calling the handler.
* `datetime.utcnow()` is made an explicit `PyDateTime` argument; its
  `isoformat()` is implemented faithfully (zero-padded fields, microseconds
  printed as 6 digits only when nonzero).
* Network sends and `json.dumps` serialization are abstracted: a reply is
  the JSON value handed to the send/serialize step.
-/

inductive Json where
  | null
  | bool (b : Bool)
  | num (n : Int)
  | str (s : String)
  | arr (elems : List Json)
  | obj (members : List (String × Json))

/-- Python truthiness of a JSON value (None/False/0/empty are falsy). -/
def Json.truthy : Json → Bool
  | .null => false
  | .bool b => b
  | .num n => n != 0
  | .str s => s != ""
  | .arr elems => !elems.isEmpty
  | .obj members => !members.isEmpty

/-- Truthiness of a possibly-absent Python value (absent = Python `None`). -/
def pyTruthy : Option Json → Bool
  | none => false
  | some v => v.truthy

/-- Python `a or b`: the first operand if truthy, otherwise the second. -/
def pyOr (a b : Option Json) : Option Json :=
  if pyTruthy a then a else b

/-- Key lookup in a JSON object, last duplicate winning, as in a Python dict
built by `json.loads`. -/
def objGet (members : List (String × Json)) (k : String) : Option Json :=
  match members with
  | [] => none
  | (k2, v) :: rest =>
    match objGet rest k with
    | some r => some r
    | none => if k2 = k then some v else none

/-- Field access on a JSON value; `none` for non-objects or absent keys. -/
def Json.field : Json → String → Option Json
  | .obj members, k => objGet members k
  | _, _ => none

/-- Python `payload.get(k)`: returns the stored value (or None) on a dict,
raises `AttributeError` on any other value. -/
def dict_get (payload : Json) (k : String) : Except String (Option Json) :=
  match payload with
  | .obj members => .ok (objGet members k)
  | _ => .error "AttributeError: object has no attribute get"

/-- Python `payload.get(k, default)`: the stored value when the key is
present (even if it is null), the default otherwise; raises on non-dicts. -/
def dict_getD (payload : Json) (k : String) (default : Json) :
    Except String Json :=
  match payload with
  | .obj members => .ok ((objGet members k).getD default)
  | _ => .error "AttributeError: object has no attribute get"

/-- The `if message_id: ack[quote]message_id[quote] = message_id` step shared
by both servers: one object entry when the id is truthy, nothing otherwise. -/
def midEntry (message_id : Option Json) : List (String × Json) :=
  match message_id with
  | some v => if v.truthy then [("message_id", v)] else []
  | none => []

/-- A `datetime.datetime` instant as used by `datetime.utcnow()`. -/
structure PyDateTime where
  year : Nat
  month : Nat
  day : Nat
  hour : Nat
  minute : Nat
  second : Nat
  microsecond : Nat
deriving DecidableEq

/-- Field ranges guaranteed by `datetime` (and required by ISO-8601). -/
def checkRanges (y mo d h mi s us : Nat) : Bool :=
  1 ≤ y && y ≤ 9999 && 1 ≤ mo && mo ≤ 12 && 1 ≤ d && d ≤ 31 &&
  h ≤ 23 && mi ≤ 59 && s ≤ 59 && us ≤ 999999

/-- A `PyDateTime` whose fields are in the ranges `datetime` guarantees. -/
def PyDateTime.valid (t : PyDateTime) : Bool :=
  checkRanges t.year t.month t.day t.hour t.minute t.second t.microsecond

/-- `n` rendered as exactly `w` decimal digits, most significant first
(Python's zero-padded field rendering, correct for `n < 10 ^ w`). -/
def padDigits : Nat → Nat → List Char
  | 0, _ => []
  | w + 1, n => Nat.digitChar (n / 10 ^ w % 10) :: padDigits w (n % 10 ^ w)

/-- `datetime.isoformat()` output characters: `YYYY-MM-DDTHH:MM:SS` with a
`.ffffff` suffix exactly when the microsecond field is nonzero. -/
def isoChars (t : PyDateTime) : List Char :=
  padDigits 4 t.year ++ '-' :: padDigits 2 t.month ++ '-' :: padDigits 2 t.day
    ++ 'T' :: padDigits 2 t.hour ++ ':' :: padDigits 2 t.minute
    ++ ':' :: padDigits 2 t.second
    ++ (if t.microsecond = 0 then [] else '.' :: padDigits 6 t.microsecond)

/-- `datetime.isoformat()` as a string. -/
def pyIsoformat (t : PyDateTime) : String :=
  ⟨isoChars t⟩

/-- Read exactly `w` decimal digits, most significant first, extending the
accumulator; fails on a non-digit or end of input. -/
def readDigits : Nat → Nat → List Char → Option (Nat × List Char)
  | 0, acc, cs => some (acc, cs)
  | w + 1, acc, cs =>
    match cs with
    | [] => none
    | c :: rest =>
      if c.isDigit then readDigits w (acc * 10 + (c.toNat - 48)) rest else none

/-- Consume one expected character. -/
def expectChar (c : Char) : List Char → Option (List Char)
  | [] => none
  | c2 :: rest => if c2 = c then some rest else none

/-- Read the optional fractional-seconds part: `.ffffff` when present,
otherwise zero microseconds. -/
def readMicro : List Char → Option (Nat × List Char)
  | '.' :: cs => readDigits 6 0 cs
  | rest => some (0, rest)

/-- Parse one numeric field of width `w` followed by the separator `sep`,
then continue with `k`. -/
def fieldStep (w : Nat) (sep : Char)
    (k : Nat → List Char → Option PyDateTime) (cs : List Char) :
    Option PyDateTime :=
  (readDigits w 0 cs).bind fun p =>
  (expectChar sep p.2).bind fun rest => k p.1 rest

/-- Parse the trailing `SS[.ffffff]Z` part, given the already-parsed
fields. -/
def parseTimeTail (y mo d hh mi : Nat) (cs : List Char) :
    Option PyDateTime :=
  (readDigits 2 0 cs).bind fun ps =>
  (readMicro ps.2).bind fun pus =>
  (expectChar 'Z' pus.2).bind fun rest =>
  match rest with
  | [] =>
    if checkRanges y mo d hh mi ps.1 pus.1 then
      some ⟨y, mo, d, hh, mi, ps.1, pus.1⟩
    else none
  | _ => none

/-- Parse `MM:SS[.ffffff]Z`. -/
def parseMinutePart (y mo d hh : Nat) (cs : List Char) : Option PyDateTime :=
  fieldStep 2 ':' (parseTimeTail y mo d hh) cs

/-- Parse `HH:MM:SS[.ffffff]Z`. -/
def parseHourPart (y mo d : Nat) (cs : List Char) : Option PyDateTime :=
  fieldStep 2 ':' (parseMinutePart y mo d) cs

/-- Parse `DDTHH:MM:SS[.ffffff]Z`. -/
def parseDayPart (y mo : Nat) (cs : List Char) : Option PyDateTime :=
  fieldStep 2 'T' (parseHourPart y mo) cs

/-- Parse `MM-DDTHH:MM:SS[.ffffff]Z`. -/
def parseMonthPart (y : Nat) (cs : List Char) : Option PyDateTime :=
  fieldStep 2 '-' (parseDayPart y) cs

/-- Parser for ISO-8601 UTC instants of the shape produced by
`datetime.utcnow().isoformat() + Z`: `YYYY-MM-DDTHH:MM:SS[.ffffff]Z` with
in-range fields. -/
def parseIsoZ (s : String) : Option PyDateTime :=
  fieldStep 4 '-' parseMonthPart s.data

/-- An HTTP response: status code plus the JSON content handed to
`JSONResponse`. -/
structure HttpResponse where
  status_code : Nat
  content : Json

/-- Outcome of `await request.json()` on an HTTP body.  `jsonError` models
`json.JSONDecodeError` (text that is not valid JSON); `decodeError` models
`UnicodeDecodeError` (bytes that are not valid UTF-8), which is not a
subclass of `JSONDecodeError` and therefore escapes the handlers'
`except json.JSONDecodeError` clauses into their catch-alls. -/
inductive BodyOutcome where
  | ok (payload : Json)
  | jsonError
  | decodeError

namespace FastapiServer

/-- `create_acknowledgment` of src/fastapi_server.py: the shared envelope
builder (current time passed explicitly in place of `datetime.utcnow()`). -/
def create_acknowledgment (now : PyDateTime) (message_id : Option Json)
    (status : String) (timestamp : Option String)
    (data : Option (List (String × Json))) : Json :=
  let ts := match timestamp with
    | none => pyIsoformat now ++ "Z"
    | some t => t
  .obj ([("type", .str "acknowledgment"), ("status", .str status),
        ("timestamp", .str ts)]
    ++ midEntry message_id
    ++ (match data with
        | some d => if !d.isEmpty then [("data", .obj d)] else []
        | none => []))

/-- The 500 reply of the `/message` catch-all clause. -/
def serverError500 (e : String) : HttpResponse :=
  ⟨500, .obj [("type", .str "error"), ("status", .str "server_error"),
    ("message", .str e)]⟩

/-- `receive_message` (POST /message): `body` is the outcome of
`request.json()`.  A `json.JSONDecodeError` is answered 400 by its
dedicated clause; a `UnicodeDecodeError` (undecodable bytes) and any
exception raised by the field extraction are routed to the catch-all 500
clause (its message text is abstracted). -/
def receive_message (now : PyDateTime) (body : BodyOutcome) : HttpResponse :=
  match body with
  | .jsonError =>
    ⟨400, .obj [("type", .str "error"), ("status", .str "invalid_json"),
      ("message", .str "Request body must be valid JSON")]⟩
  | .decodeError => serverError500 "UnicodeDecodeError: undecodable bytes"
  | .ok payload =>
    match dict_get payload "id" with
    | .error e => serverError500 e
    | .ok idv =>
      match (if pyTruthy idv then Except.ok idv
             else dict_get payload "message_id") with
      | .error e => serverError500 e
      | .ok message_id =>
        match dict_getD payload "type" (.str "unknown") with
        | .error e => serverError500 e
        | .ok message_type =>
          ⟨200, create_acknowledgment now message_id "received" none
            (some [("processed_type", message_type)])⟩

/-- `receive_data` (POST /data): only `id` is consulted for the echo, and
the 500 clause carries no message text.  As in the source, only a
`json.JSONDecodeError` reaches the 400 clause; undecodable bytes fall
through to the catch-all 500. -/
def receive_data (now : PyDateTime) (body : BodyOutcome) : HttpResponse :=
  match body with
  | .jsonError =>
    ⟨400, .obj [("type", .str "error"), ("status", .str "invalid_json")]⟩
  | .decodeError =>
    ⟨500, .obj [("type", .str "error"), ("status", .str "server_error")]⟩
  | .ok payload =>
    match dict_get payload "id" with
    | .error _ =>
      ⟨500, .obj [("type", .str "error"), ("status", .str "server_error")]⟩
    | .ok message_id =>
      ⟨200, create_acknowledgment now message_id "ok" none none⟩

/-- The 503 reply sent when `GEMINI_API_KEY` is unset. -/
def geminiNotConfigured503 : HttpResponse :=
  ⟨503, .obj [("type", .str "error"), ("status", .str "gemini_not_configured"),
    ("message", .str "Gemini API is not configured")]⟩

/-- `ai_prompt` (POST /ai).  `geminiConfigured` models `GEMINI_API_KEY`
being set; `genContent` models `GEMINI_MODEL.generate_content` (result text
or raised exception).  The second component records whether the bridge was
called. -/
def ai_prompt (geminiConfigured : Bool)
    (genContent : String → Except String String) (now : PyDateTime)
    (body : BodyOutcome) : HttpResponse × Bool :=
  if !geminiConfigured then
    (geminiNotConfigured503, false)
  else
    match body with
    | .jsonError =>
      (⟨400, .obj [("type", .str "error"), ("status", .str "invalid_json")]⟩,
        false)
    | .decodeError =>
      (⟨500, .obj [("type", .str "error"), ("status", .str "server_error")]⟩,
        false)
    | .ok payload =>
      match dict_get payload "prompt" with
      | .error _ =>
        (⟨500, .obj [("type", .str "error"), ("status", .str "server_error")]⟩,
          false)
      | .ok prompt =>
        -- `if not prompt or not isinstance(prompt, str)`
        match prompt with
        | some (.str p) =>
          if p = "" then
            (⟨400, .obj [("type", .str "error"),
              ("status", .str "missing_prompt")]⟩, false)
          else
            match dict_get payload "id" with
            | .error _ =>
              (⟨500, .obj [("type", .str "error"),
                ("status", .str "server_error")]⟩, false)
            | .ok message_id =>
              match genContent p with
              | .error e =>
                (⟨500, .obj [("type", .str "error"), ("status", .str "ai_error"),
                  ("message", .str e)]⟩, true)
              | .ok text =>
                let ai_response :=
                  if text != "" then text else "No response generated"
                (⟨200, .obj ([("type", .str "ai_response"),
                  ("status", .str "ok"), ("response", .str ai_response),
                  ("timestamp", .str (pyIsoformat now ++ "Z"))]
                  ++ midEntry message_id)⟩, true)
        | _ =>
          (⟨400, .obj [("type", .str "error"),
            ("status", .str "missing_prompt")]⟩, false)

/-- The `if id:` step of the GET /ai route (query parameters are strings). -/
def idEntry (id : Option String) : List (String × Json) :=
  match id with
  | some s => if s != "" then [("message_id", .str s)] else []
  | none => []

/-- `ai_prompt_get` (GET /ai): query parameters `prompt` and `id`. -/
def ai_prompt_get (geminiConfigured : Bool)
    (genContent : String → Except String String) (now : PyDateTime)
    (prompt : Option String) (id : Option String) : HttpResponse × Bool :=
  if !geminiConfigured then
    (geminiNotConfigured503, false)
  else
    match prompt with
    | none =>
      (⟨400, .obj [("type", .str "error"), ("status", .str "missing_prompt")]⟩,
        false)
    | some p =>
      if p = "" then
        (⟨400, .obj [("type", .str "error"), ("status", .str "missing_prompt")]⟩,
          false)
      else
        match genContent p with
        | .error e =>
          (⟨500, .obj [("type", .str "error"), ("status", .str "ai_error"),
            ("message", .str e)]⟩, true)
        | .ok text =>
          let ai_response := if text != "" then text else "No response generated"
          (⟨200, .obj ([("type", .str "ai_response"), ("status", .str "ok"),
            ("response", .str ai_response),
            ("timestamp", .str (pyIsoformat now ++ "Z"))]
            ++ idEntry id)⟩, true)

/-- `health_check`: defined in the source (GET /health in its docstring),
though no route decorator registers it. -/
def health_check (now : PyDateTime) : HttpResponse :=
  ⟨200, .obj [("status", .str "healthy"),
    ("timestamp", .str (pyIsoformat now ++ "Z"))]⟩

/-- `root` (GET /): the static API-information object. -/
def root : HttpResponse :=
  ⟨200, .obj [("name", .str "UE5 VaRest Server"), ("version", .str "1.0.0"),
    ("endpoints", .obj [
      ("POST /message", .str "Main message receiver"),
      ("POST /data", .str "Alternative data receiver"),
      ("POST /ai", .str "Send prompt to Gemini AI"),
      ("GET /health", .str "Health check"),
      ("GET /", .str "API info")])]⟩

end FastapiServer

namespace UdpServer

/-- `create_acknowledgment` of src/udp_server.py (no `data` parameter); the
`json.dumps` serialization of the returned dict is abstracted away, so the
result is the JSON value itself. -/
def create_acknowledgment (now : PyDateTime) (message_id : Option Json)
    (status : String) (timestamp : Option String) : Json :=
  let ts := match timestamp with
    | none => pyIsoformat now ++ "Z"
    | some t => t
  .obj ([("type", .str "acknowledgment"), ("status", .str status),
    ("timestamp", .str ts)] ++ midEntry message_id)

/-- Outcome of `handle_client_message` on one datagram: either a reply
datagram is sent back, or the handler raises (the raise escapes to the
server loop, which logs and continues). -/
inductive UdpOutcome where
  | reply (content : Json)
  | raised (e : String)

/-- `handle_client_message`: `parsed` is the result of `parse_message`
(`none` exactly when utf-8 decoding or JSON parsing failed).  The
`message.get` calls sit outside the handler's try block, so an
`AttributeError` on a non-object message propagates out (`raised`). -/
def handle_client_message (now : PyDateTime) (parsed : Option Json) :
    UdpOutcome :=
  match parsed with
  | none => .reply (.obj [("type", .str "error"), ("status", .str "invalid_json")])
  | some message =>
    match dict_get message "id" with
    | .error e => .raised e
    | .ok idv =>
      match (if pyTruthy idv then Except.ok idv
             else dict_get message "message_id") with
      | .error e => .raised e
      | .ok message_id =>
        .reply (create_acknowledgment now message_id "ok" none)

/-- One received datagram as the loop sees it: the Python truthiness of
the raw bytes (`if data:` — false exactly for a zero-length datagram) and
the result of `parse_message` on those bytes. -/
structure Datagram where
  dataTruthy : Bool
  parsed : Option Json

/-- The receive loop of `start_server`, run over a finite trace of
received datagrams (each paired with the clock instant of its handling):
the replies sent back, in order.  The loop's `if data:` guard skips an
empty datagram without calling the handler; a raised exception is caught
by the loop's `except Exception` clause; in both cases processing
continues. -/
def server_loop : List (PyDateTime × Datagram) → List Json
  | [] => []
  | (t, d) :: rest =>
    if d.dataTruthy then
      match handle_client_message t d.parsed with
      | .reply j => j :: server_loop rest
      | .raised _ => server_loop rest
    else
      server_loop rest

end UdpServer


/-- Whether a JSON value is an object (a Python dict after `json.loads`). -/
def Json.isObj : Json → Bool
  | .obj _ => true
  | _ => false

/-- Whether a possibly-absent Python value is a string
(`isinstance(prompt, str)`). -/
def pyIsStr : Option Json → Bool
  | some (.str _) => true
  | _ => false

/-- The response-envelope invariant of the spec, restricted to its checkable
core: the body is a JSON object holding at least `type` and `status`. -/
def hasTypeAndStatus (j : Json) : Bool :=
  (j.field "type").isSome && (j.field "status").isSome

/-- A JSON object with the `timestamp` member removed (for comparing two
replies up to their timestamps). -/
def eraseTimestamp : Json → Json
  | .obj members => .obj (members.filter (fun kv => kv.1 != "timestamp"))
  | j => j

/-- A sample clock instant (in the ranges `datetime` guarantees). -/
def sampleTime : PyDateTime := ⟨2026, 10, 12, 3, 4, 5, 0⟩

/-- A second, distinct sample clock instant. -/
def sampleTime2 : PyDateTime := ⟨2026, 10, 12, 3, 4, 6, 500000⟩

/-- A sample AI bridge that always answers. -/
def gen0 : String → Except String String := fun _ => .ok "hello"

/-- The fixed UDP reply to an undecodable or unparsable datagram. -/
def udpInvalidJsonReply : Json :=
  .obj [("type", .str "error"), ("status", .str "invalid_json")]

/-! ### Decimal rendering and parsing lemmas -/

lemma digitChar_isDigit (m : Nat) (h : m < 10) :
    (Nat.digitChar m).isDigit = true := by
  interval_cases m <;> decide

lemma digitChar_toNat_sub (m : Nat) (h : m < 10) :
    (Nat.digitChar m).toNat - 48 = m := by
  interval_cases m <;> decide

lemma readDigits_padDigits (w : Nat) :
    ∀ (acc n : Nat) (cs : List Char), n < 10 ^ w →
      readDigits w acc (padDigits w n ++ cs) = some (acc * 10 ^ w + n, cs) := by
  induction w with
  | zero =>
    intro acc n cs h
    have hn : n = 0 := by simpa using h
    simp [readDigits, padDigits, hn]
  | succ w ih =>
    intro acc n cs h
    have hd : n / 10 ^ w % 10 < 10 := Nat.mod_lt _ (by norm_num)
    have hq : n / 10 ^ w < 10 := by
      apply Nat.div_lt_of_lt_mul
      rw [← pow_succ]
      exact h
    have hr : n % 10 ^ w < 10 ^ w := Nat.mod_lt _ (by positivity)
    simp only [padDigits, List.cons_append, readDigits,
      digitChar_isDigit _ hd, if_true, digitChar_toNat_sub _ hd]
    rw [ih _ _ _ hr]
    have harith : (acc * 10 + n / 10 ^ w % 10) * 10 ^ w + n % 10 ^ w
        = acc * 10 ^ (w + 1) + n := by
      rw [Nat.mod_eq_of_lt hq]
      calc (acc * 10 + n / 10 ^ w) * 10 ^ w + n % 10 ^ w
          = acc * (10 ^ w * 10) + (n / 10 ^ w * 10 ^ w + n % 10 ^ w) := by ring
        _ = acc * 10 ^ (w + 1) + n := by rw [Nat.div_add_mod', pow_succ]
    rw [harith]

lemma readDigits_pad0 {w n : Nat} (h : n < 10 ^ w) (cs : List Char) :
    readDigits w 0 (padDigits w n ++ cs) = some (n, cs) := by
  rw [readDigits_padDigits w 0 n cs h]
  simp

@[simp] lemma expectChar_cons_self (c : Char) (cs : List Char) :
    expectChar c (c :: cs) = some cs := by
  simp [expectChar]

lemma readMicro_dot (cs : List Char) :
    readMicro ('.' :: cs) = readDigits 6 0 cs := rfl

lemma readMicro_Z (cs : List Char) :
    readMicro ('Z' :: cs) = some (0, 'Z' :: cs) := rfl

lemma fieldStep_pad {w n : Nat} (h : n < 10 ^ w) (sep : Char)
    (k : Nat → List Char → Option PyDateTime) (cs : List Char) :
    fieldStep w sep k (padDigits w n ++ sep :: cs) = k n cs := by
  rw [fieldStep, readDigits_pad0 h, Option.some_bind]
  dsimp only
  rw [expectChar_cons_self, Option.some_bind]

lemma parseTimeTail_noMicro (y mo d hh mi s : Nat) (hs : s < 10 ^ 2)
    (hcr : checkRanges y mo d hh mi s 0 = true) :
    parseTimeTail y mo d hh mi (padDigits 2 s ++ ['Z'])
      = some ⟨y, mo, d, hh, mi, s, 0⟩ := by
  rw [parseTimeTail, readDigits_pad0 hs, Option.some_bind]
  dsimp only
  rw [readMicro_Z, Option.some_bind]
  dsimp only
  rw [expectChar_cons_self, Option.some_bind]
  dsimp only
  rw [hcr]
  rfl

lemma parseTimeTail_micro (y mo d hh mi s us : Nat) (hs : s < 10 ^ 2)
    (hus : us < 10 ^ 6) (hcr : checkRanges y mo d hh mi s us = true) :
    parseTimeTail y mo d hh mi
        (padDigits 2 s ++ '.' :: (padDigits 6 us ++ ['Z']))
      = some ⟨y, mo, d, hh, mi, s, us⟩ := by
  rw [parseTimeTail, readDigits_pad0 hs, Option.some_bind]
  dsimp only
  rw [readMicro_dot, readDigits_pad0 hus, Option.some_bind]
  dsimp only
  rw [expectChar_cons_self, Option.some_bind]
  dsimp only
  rw [hcr]
  rfl

theorem parseIsoZ_pyIsoformat (t : PyDateTime) (hv : t.valid = true) :
    parseIsoZ (pyIsoformat t ++ "Z") = some t := by
  obtain ⟨y, mo, d, hh, mi, s, us⟩ := t
  simp only [PyDateTime.valid, checkRanges, Bool.and_eq_true,
    decide_eq_true_eq] at hv
  have hcr : checkRanges y mo d hh mi s us = true := by
    simp only [checkRanges, Bool.and_eq_true, decide_eq_true_eq]
    omega
  have hdata : (pyIsoformat ⟨y, mo, d, hh, mi, s, us⟩ ++ "Z").data
      = isoChars ⟨y, mo, d, hh, mi, s, us⟩ ++ ['Z'] := rfl
  by_cases hus : us = 0
  · subst hus
    have harg : (pyIsoformat ⟨y, mo, d, hh, mi, s, 0⟩ ++ "Z").data
        = padDigits 4 y ++ '-' :: (padDigits 2 mo ++ '-' :: (padDigits 2 d
          ++ 'T' :: (padDigits 2 hh ++ ':' :: (padDigits 2 mi
          ++ ':' :: (padDigits 2 s ++ ['Z']))))) := by
      rw [hdata, isoChars]
      simp only [if_pos rfl, ite_true, List.cons_append, List.append_assoc,
        List.nil_append]
    rw [parseIsoZ, harg, fieldStep_pad (by omega), parseMonthPart,
      fieldStep_pad (by omega), parseDayPart, fieldStep_pad (by omega),
      parseHourPart, fieldStep_pad (by omega), parseMinutePart,
      fieldStep_pad (by omega)]
    exact parseTimeTail_noMicro y mo d hh mi s (by omega) hcr
  · have harg : (pyIsoformat ⟨y, mo, d, hh, mi, s, us⟩ ++ "Z").data
        = padDigits 4 y ++ '-' :: (padDigits 2 mo ++ '-' :: (padDigits 2 d
          ++ 'T' :: (padDigits 2 hh ++ ':' :: (padDigits 2 mi
          ++ ':' :: (padDigits 2 s ++ '.' :: (padDigits 6 us ++ ['Z'])))))) := by
      rw [hdata, isoChars]
      simp only [if_neg hus, List.cons_append, List.append_assoc]
    rw [parseIsoZ, harg, fieldStep_pad (by omega), parseMonthPart,
      fieldStep_pad (by omega), parseDayPart, fieldStep_pad (by omega),
      parseHourPart, fieldStep_pad (by omega), parseMinutePart,
      fieldStep_pad (by omega)]
    exact parseTimeTail_micro y mo d hh mi s us (by omega) (by omega) hcr

/-- Two distinct valid instants render to distinct timestamp strings. -/
theorem pyIsoformatZ_inj (t1 t2 : PyDateTime) (h1 : t1.valid = true)
    (h2 : t2.valid = true)
    (he : pyIsoformat t1 ++ "Z" = pyIsoformat t2 ++ "Z") : t1 = t2 := by
  have p1 := parseIsoZ_pyIsoformat t1 h1
  have p2 := parseIsoZ_pyIsoformat t2 h2
  rw [he, p2] at p1
  exact (Option.some.inj p1).symm

/-- The generated timestamp string always ends in the UTC designator. -/
theorem pyIsoformatZ_endsZ (t : PyDateTime) :
    (pyIsoformat t ++ "Z").data.getLast? = some 'Z' := by
  have hdata : (pyIsoformat t ++ "Z").data = isoChars t ++ ['Z'] := rfl
  rw [hdata]
  simp

lemma objGet_append (a b : List (String × Json)) (k : String) :
    objGet (a ++ b) k =
      match objGet b k with
      | some r => some r
      | none => objGet a k := by
  induction a with
  | nil =>
    simp only [List.nil_append, objGet]
    cases objGet b k <;> rfl
  | cons hd tl ih =>
    obtain ⟨k2, v⟩ := hd
    simp only [List.cons_append, objGet, List.append_eq, ih]
    cases objGet b k <;> cases objGet tl k <;> rfl

lemma fastapi_ack_fields (now : PyDateTime) (mid : Option Json) (st : String)
    (ts : Option String) (data : Option (List (String × Json))) :
    (FastapiServer.create_acknowledgment now mid st ts data).field "type"
        = some (.str "acknowledgment") ∧
    (FastapiServer.create_acknowledgment now mid st ts data).field "status"
        = some (.str st) ∧
    (FastapiServer.create_acknowledgment now mid st ts data).field "timestamp"
        = some (.str (ts.getD (pyIsoformat now ++ "Z"))) ∧
    (FastapiServer.create_acknowledgment now mid st ts data).field "message_id"
        = (if pyTruthy mid then mid else none) ∧
    (FastapiServer.create_acknowledgment now mid st ts data).field "data"
        = (match data with
           | some d => if !d.isEmpty then some (.obj d) else none
           | none => none) := by
  rcases mid with _ | v
  · rcases data with _ | dl <;> rcases ts with _ | s <;>
    first
      | (cases hd : dl.isEmpty <;>
          simp [FastapiServer.create_acknowledgment, midEntry, pyTruthy,
            Json.field, objGet_append, objGet, hd])
      | simp [FastapiServer.create_acknowledgment, midEntry, pyTruthy,
          Json.field, objGet_append, objGet]
  · cases hv : v.truthy <;> rcases data with _ | dl <;> rcases ts with _ | s <;>
    first
      | (cases hd : dl.isEmpty <;>
          simp [FastapiServer.create_acknowledgment, midEntry, pyTruthy,
            Json.field, objGet_append, objGet, hv, hd])
      | simp [FastapiServer.create_acknowledgment, midEntry, pyTruthy,
          Json.field, objGet_append, objGet, hv]

lemma udp_ack_fields (now : PyDateTime) (mid : Option Json) (st : String)
    (ts : Option String) :
    (UdpServer.create_acknowledgment now mid st ts).field "type"
        = some (.str "acknowledgment") ∧
    (UdpServer.create_acknowledgment now mid st ts).field "status"
        = some (.str st) ∧
    (UdpServer.create_acknowledgment now mid st ts).field "timestamp"
        = some (.str (ts.getD (pyIsoformat now ++ "Z"))) ∧
    (UdpServer.create_acknowledgment now mid st ts).field "message_id"
        = (if pyTruthy mid then mid else none) := by
  rcases mid with _ | v
  · rcases ts with _ | s <;>
      simp [UdpServer.create_acknowledgment, midEntry, pyTruthy,
        Json.field, objGet_append, objGet]
  · cases hv : v.truthy <;> rcases ts with _ | s <;>
      simp [UdpServer.create_acknowledgment, midEntry, pyTruthy,
        Json.field, objGet_append, objGet, hv]

lemma ai_ack_fields (mid : Option Json) (resp ts : String) :
    (Json.obj ([("type", .str "ai_response"), ("status", .str "ok"),
        ("response", .str resp), ("timestamp", .str ts)]
      ++ midEntry mid)).field "message_id"
        = (if pyTruthy mid then mid else none) ∧
    (Json.obj ([("type", .str "ai_response"), ("status", .str "ok"),
        ("response", .str resp), ("timestamp", .str ts)]
      ++ midEntry mid)).field "type" = some (.str "ai_response") ∧
    (Json.obj ([("type", .str "ai_response"), ("status", .str "ok"),
        ("response", .str resp), ("timestamp", .str ts)]
      ++ midEntry mid)).field "status" = some (.str "ok") := by
  rcases mid with _ | v
  · simp [midEntry, pyTruthy, Json.field, objGet_append, objGet]
  · cases hv : v.truthy <;>
      simp [midEntry, pyTruthy, Json.field, objGet_append, objGet, hv]

/-! ### Handler reduction lemmas -/

lemma receive_message_obj (now : PyDateTime) (members : List (String × Json)) :
    FastapiServer.receive_message now (.ok (.obj members))
      = ⟨200, FastapiServer.create_acknowledgment now
          (pyOr (objGet members "id") (objGet members "message_id"))
          "received" none
          (some [("processed_type",
            (objGet members "type").getD (.str "unknown"))])⟩ := by
  simp only [FastapiServer.receive_message, dict_get, dict_getD, pyOr]
  cases pyTruthy (objGet members "id") <;> simp

lemma receive_data_obj (now : PyDateTime) (members : List (String × Json)) :
    FastapiServer.receive_data now (.ok (.obj members))
      = ⟨200, FastapiServer.create_acknowledgment now
          (objGet members "id") "ok" none none⟩ := by
  simp [FastapiServer.receive_data, dict_get]

lemma handle_client_message_obj (now : PyDateTime)
    (members : List (String × Json)) :
    UdpServer.handle_client_message now (some (.obj members))
      = .reply (UdpServer.create_acknowledgment now
          (pyOr (objGet members "id") (objGet members "message_id"))
          "ok" none) := by
  simp only [UdpServer.handle_client_message, dict_get, pyOr]
  cases pyTruthy (objGet members "id") <;> simp

lemma ai_prompt_ok (gen : String → Except String String) (now : PyDateTime)
    (members : List (String × Json)) (p text : String)
    (hp : objGet members "prompt" = some (.str p)) (hne : ¬ p = "")
    (hg : gen p = .ok text) :
    FastapiServer.ai_prompt true gen now (.ok (.obj members))
      = (⟨200, .obj ([("type", .str "ai_response"), ("status", .str "ok"),
          ("response", .str (if text != "" then text
            else "No response generated")),
          ("timestamp", .str (pyIsoformat now ++ "Z"))]
          ++ midEntry (objGet members "id"))⟩, true) := by
  simp [FastapiServer.ai_prompt, dict_get, hp, hne, hg]

/-! ### Claims -/

/-- Claim C3 counterexample: a zero-length datagram fails JSON parsing
(so its parse result is `none`), but the loop's `if data:` guard skips it
without calling the handler, so no `invalid_json` reply is sent for it. -/
theorem C3_empty_datagram_counterexample :
    UdpServer.server_loop [(sampleTime, ⟨false, none⟩)] = [] ∧
    udpInvalidJsonReply ∉ UdpServer.server_loop [(sampleTime, ⟨false, none⟩)] :=
  ⟨rfl, by intro h; simp [UdpServer.server_loop] at h⟩

/-- Claim C3 (amended): a non-empty UDP datagram whose bytes fail UTF-8
decoding or JSON parsing is answered with the fixed `invalid_json` error
reply sent to the sender, the handler does not raise, and the receive loop
processes the remaining datagrams unchanged; a zero-length datagram also
fails parsing but is skipped by the loop's `if data:` guard with no reply,
the loop again continuing. -/
theorem C3_udp_invalid_json_loop_amended (t : PyDateTime)
    (rest : List (PyDateTime × UdpServer.Datagram)) :
    UdpServer.handle_client_message t none = .reply udpInvalidJsonReply ∧
    UdpServer.server_loop ((t, ⟨true, none⟩) :: rest)
      = udpInvalidJsonReply :: UdpServer.server_loop rest ∧
    UdpServer.server_loop ((t, ⟨false, none⟩) :: rest)
      = UdpServer.server_loop rest :=
  ⟨rfl, rfl, rfl⟩

/-- Claim C4: every well-formed JSON object body on POST /message gets a
200 acknowledgment whose `data.processed_type` is the inbound `type` field
when present and the string `unknown` when absent. -/
theorem C4_message_route_envelope (now : PyDateTime)
    (members : List (String × Json)) :
    (FastapiServer.receive_message now (.ok (.obj members))).status_code
        = 200 ∧
    (FastapiServer.receive_message now (.ok (.obj members))).content.field
        "type" = some (.str "acknowledgment") ∧
    (FastapiServer.receive_message now (.ok (.obj members))).content.field
        "status" = some (.str "received") ∧
    (FastapiServer.receive_message now (.ok (.obj members))).content.field
        "data" = some (.obj [("processed_type",
          (objGet members "type").getD (.str "unknown"))]) := by
  rw [receive_message_obj]
  have h := fastapi_ack_fields now
    (pyOr (objGet members "id") (objGet members "message_id")) "received"
    none
    (some [("processed_type", (objGet members "type").getD (.str "unknown"))])
  exact ⟨rfl, h.1, h.2.1, by simpa using h.2.2.2.2⟩

/-- Claim C5 (amended): a body whose text fails JSON parsing
(`json.JSONDecodeError`) yields 400 `invalid_json` on POST /message and
POST /data, and on POST /ai when the API key is configured; a body whose
bytes fail UTF-8 decoding (`UnicodeDecodeError`) escapes those dedicated
clauses and is answered 500 `server_error` by the catch-alls on all three
routes (key configured); with no key configured, /ai answers 503
`gemini_not_configured` for both kinds of malformed body. -/
theorem C5_invalid_json_amended (gen : String → Except String String)
    (now : PyDateTime) :
    FastapiServer.receive_message now .jsonError
      = ⟨400, .obj [("type", .str "error"), ("status", .str "invalid_json"),
          ("message", .str "Request body must be valid JSON")]⟩ ∧
    FastapiServer.receive_data now .jsonError
      = ⟨400, .obj [("type", .str "error"),
          ("status", .str "invalid_json")]⟩ ∧
    FastapiServer.ai_prompt true gen now .jsonError
      = (⟨400, .obj [("type", .str "error"),
          ("status", .str "invalid_json")]⟩, false) ∧
    (FastapiServer.receive_message now .decodeError).status_code = 500 ∧
    (FastapiServer.receive_message now .decodeError).content.field "status"
      = some (.str "server_error") ∧
    FastapiServer.receive_data now .decodeError
      = ⟨500, .obj [("type", .str "error"),
          ("status", .str "server_error")]⟩ ∧
    FastapiServer.ai_prompt true gen now .decodeError
      = (⟨500, .obj [("type", .str "error"),
          ("status", .str "server_error")]⟩, false) ∧
    FastapiServer.ai_prompt false gen now .jsonError
      = (FastapiServer.geminiNotConfigured503, false) ∧
    FastapiServer.ai_prompt false gen now .decodeError
      = (FastapiServer.geminiNotConfigured503, false) :=
  ⟨rfl, rfl, rfl, rfl, rfl, rfl, rfl, rfl, rfl⟩

/-- Claim C5 counterexample: with no API key configured a malformed body on
POST /ai is answered 503, and an undecodable (non-UTF-8) body on
POST /message or POST /data is answered 500 — in none of these cases the
claimed 400. -/
theorem C5_not_always_400_counterexample :
    (FastapiServer.ai_prompt false gen0 sampleTime .jsonError).1.status_code
        = 503 ∧
    (FastapiServer.receive_message sampleTime .decodeError).status_code
        = 500 ∧
    (FastapiServer.receive_data sampleTime .decodeError).status_code
        = 500 ∧
    ¬ (FastapiServer.ai_prompt false gen0 sampleTime
        .jsonError).1.status_code = 400 ∧
    ¬ (FastapiServer.receive_message sampleTime .decodeError).status_code
        = 400 :=
  ⟨rfl, rfl, rfl, by decide, by decide⟩

/-- Claim C6: with no API key configured, both /ai routes answer 503
`gemini_not_configured` whatever the body or query holds, and the AI bridge
is never called (second component `false`). -/
theorem C6_ai_unconfigured_503 (gen : String → Except String String)
    (now : PyDateTime) (body : BodyOutcome) (p i : Option String) :
    FastapiServer.ai_prompt false gen now body
      = (FastapiServer.geminiNotConfigured503, false) ∧
    FastapiServer.ai_prompt_get false gen now p i
      = (FastapiServer.geminiNotConfigured503, false) ∧
    FastapiServer.geminiNotConfigured503.status_code = 503 ∧
    FastapiServer.geminiNotConfigured503.content.field "status"
      = some (.str "gemini_not_configured") :=
  ⟨rfl, rfl, rfl, rfl⟩

/-- Claim C7: on POST /ai with the key configured, a JSON object body whose
`prompt` is missing, falsy (for example empty) or not a string is answered
400 `missing_prompt`, and the AI bridge is not called. -/
theorem C7_missing_prompt (gen : String → Except String String)
    (now : PyDateTime) (members : List (String × Json))
    (h : (!pyTruthy (objGet members "prompt")
        || !pyIsStr (objGet members "prompt")) = true) :
    FastapiServer.ai_prompt true gen now (.ok (.obj members))
      = (⟨400, .obj [("type", .str "error"),
          ("status", .str "missing_prompt")]⟩, false) := by
  rcases hp : objGet members "prompt" with _ | v
  · simp [FastapiServer.ai_prompt, dict_get, hp]
  · rcases v with _ | b | n | s | el | ms
    · simp [FastapiServer.ai_prompt, dict_get, hp]
    · simp [FastapiServer.ai_prompt, dict_get, hp]
    · simp [FastapiServer.ai_prompt, dict_get, hp]
    · rw [hp] at h
      simp only [pyTruthy, pyIsStr, Json.truthy, Bool.not_true,
        Bool.or_false] at h
      have hs : s = "" := by simpa using h
      simp [FastapiServer.ai_prompt, dict_get, hp, hs]
    · simp [FastapiServer.ai_prompt, dict_get, hp]
    · simp [FastapiServer.ai_prompt, dict_get, hp]

/-- Witness for claim C7 at the concrete body with a numeric prompt. -/
theorem C7_missing_prompt_witness :
    FastapiServer.ai_prompt true gen0 sampleTime
        (.ok (.obj [("prompt", .num 123)]))
      = (⟨400, .obj [("type", .str "error"),
          ("status", .str "missing_prompt")]⟩, false) :=
  C7_missing_prompt gen0 sampleTime [("prompt", .num 123)] (by decide)

/-- Claim C10: a body that parses as JSON but is not an object makes the
field-extraction step raise, so POST /message and POST /data answer 500
`server_error`, not 400. -/
theorem C10_non_object_body_500 (now : PyDateTime) (j : Json)
    (h : j.isObj = false) :
    (FastapiServer.receive_message now (.ok j)).status_code = 500 ∧
    (FastapiServer.receive_message now (.ok j)).content.field "status"
        = some (.str "server_error") ∧
    (FastapiServer.receive_data now (.ok j)).status_code = 500 ∧
    (FastapiServer.receive_data now (.ok j)).content.field "status"
        = some (.str "server_error") := by
  cases j <;>
    first
      | exact ⟨rfl, rfl, rfl, rfl⟩
      | simp [Json.isObj] at h

/-- Witness for claim C10 at the concrete array body. -/
theorem C10_non_object_body_500_witness :
    (FastapiServer.receive_message sampleTime (.ok (.arr []))).status_code
        = 500 ∧
    (FastapiServer.receive_message sampleTime
        (.ok (.arr []))).content.field "status"
        = some (.str "server_error") ∧
    (FastapiServer.receive_data sampleTime (.ok (.arr []))).status_code
        = 500 ∧
    (FastapiServer.receive_data sampleTime (.ok (.arr []))).content.field
        "status" = some (.str "server_error") :=
  C10_non_object_body_500 sampleTime (.arr []) rfl

/-- Claim C1 counterexample: POST /data consults only `id`, so a body whose
truthy correlation token is under `message_id` gets a reply with no
`message_id` key at all. -/
theorem C1_data_route_ignores_message_id :
    (FastapiServer.receive_data sampleTime
        (.ok (.obj [("message_id", .str "abc")]))).content.field
        "message_id" = none ∧
    pyTruthy (objGet [("message_id", .str "abc")] "message_id") = true :=
  ⟨rfl, rfl⟩

/-- Claim C1 (amended): /message and UDP echo `id` falling back to
`message_id` (first truthy one); /data echoes only `id`; /ai echoes only
`id` and only in its 200 success reply; in each case a falsy or absent
token leaves the `message_id` key out. -/
theorem C1_message_id_echo_amended :
    (∀ (now : PyDateTime) (members : List (String × Json)),
      (FastapiServer.receive_message now
          (.ok (.obj members))).content.field "message_id"
        = (if pyTruthy (pyOr (objGet members "id")
              (objGet members "message_id"))
           then pyOr (objGet members "id") (objGet members "message_id")
           else none)) ∧
    (∀ (now : PyDateTime) (members : List (String × Json)),
      (FastapiServer.receive_data now
          (.ok (.obj members))).content.field "message_id"
        = (if pyTruthy (objGet members "id") then objGet members "id"
           else none)) ∧
    (∀ (gen : String → Except String String) (now : PyDateTime)
        (members : List (String × Json)) (p text : String),
      objGet members "prompt" = some (.str p) → ¬ p = "" →
      gen p = .ok text →
      (FastapiServer.ai_prompt true gen now
          (.ok (.obj members))).1.content.field "message_id"
        = (if pyTruthy (objGet members "id") then objGet members "id"
           else none)) ∧
    (∀ (now : PyDateTime) (members : List (String × Json)),
      ∃ j, UdpServer.handle_client_message now (some (.obj members))
          = .reply j ∧
        j.field "message_id"
          = (if pyTruthy (pyOr (objGet members "id")
                (objGet members "message_id"))
             then pyOr (objGet members "id") (objGet members "message_id")
             else none)) := by
  refine ⟨?_, ?_, ?_, ?_⟩
  · intro now members
    rw [receive_message_obj]
    exact (fastapi_ack_fields now
      (pyOr (objGet members "id") (objGet members "message_id"))
      "received" none
      (some [("processed_type",
        (objGet members "type").getD (.str "unknown"))])).2.2.2.1
  · intro now members
    rw [receive_data_obj]
    exact (fastapi_ack_fields now (objGet members "id") "ok" none
      none).2.2.2.1
  · intro gen now members p text hp hne hg
    rw [ai_prompt_ok gen now members p text hp hne hg]
    exact (ai_ack_fields (objGet members "id") _ _).1
  · intro now members
    exact ⟨_, handle_client_message_obj now members,
      (udp_ack_fields now
        (pyOr (objGet members "id") (objGet members "message_id"))
        "ok" none).2.2.2⟩

/-- Witness for claim C1 (amended), applying the /ai clause at a concrete
body with a prompt and a truthy id. -/
theorem C1_message_id_echo_amended_witness :
    (FastapiServer.ai_prompt true gen0 sampleTime
        (.ok (.obj [("prompt", .str "hi"),
          ("id", .str "m1")]))).1.content.field "message_id"
      = (if pyTruthy (objGet [("prompt", .str "hi"), ("id", .str "m1")]
            "id")
         then objGet [("prompt", .str "hi"), ("id", .str "m1")] "id"
         else none) :=
  C1_message_id_echo_amended.2.2.1 gen0 sampleTime
    [("prompt", .str "hi"), ("id", .str "m1")] "hi" "hello" rfl
    (by decide) rfl

/-- Claim C2 counterexample: the registered GET / route's response carries
neither a `type` nor a `status` key (and nests an object under
`endpoints`), violating the claimed invariant over all six routes. -/
theorem C2_root_lacks_type_and_status :
    FastapiServer.root.content.field "type" = none ∧
    FastapiServer.root.content.field "status" = none ∧
    hasTypeAndStatus FastapiServer.root.content = false :=
  ⟨rfl, rfl, rfl⟩

/-- Claim C2 (amended): every response of the /message, /data and /ai
handlers and every UDP reply actually sent is a JSON object carrying at
least the `type` and `status` keys; the GET / info object carries neither,
and the health handler's response has `status` but no `type`. -/
theorem C2_envelope_amended :
    (∀ (now : PyDateTime) (body : BodyOutcome),
      hasTypeAndStatus (FastapiServer.receive_message now body).content
        = true) ∧
    (∀ (now : PyDateTime) (body : BodyOutcome),
      hasTypeAndStatus (FastapiServer.receive_data now body).content
        = true) ∧
    (∀ (cfg : Bool) (gen : String → Except String String)
        (now : PyDateTime) (body : BodyOutcome),
      hasTypeAndStatus (FastapiServer.ai_prompt cfg gen now body).1.content
        = true) ∧
    (∀ (cfg : Bool) (gen : String → Except String String)
        (now : PyDateTime) (p i : Option String),
      hasTypeAndStatus
        (FastapiServer.ai_prompt_get cfg gen now p i).1.content = true) ∧
    (∀ (now : PyDateTime) (parsed : Option Json) (j : Json),
      UdpServer.handle_client_message now parsed = .reply j →
      hasTypeAndStatus j = true) ∧
    (∀ now : PyDateTime,
      (FastapiServer.health_check now).content.field "status"
          = some (.str "healthy") ∧
      (FastapiServer.health_check now).content.field "type" = none) := by
  refine ⟨?_, ?_, ?_, ?_, ?_, ?_⟩
  · intro now body
    rcases body with payload | _ | _
    · rcases payload with _ | b | n | s | el | ms
      · rfl
      · rfl
      · rfl
      · rfl
      · rfl
      · rw [receive_message_obj]
        have h := fastapi_ack_fields now
          (pyOr (objGet ms "id") (objGet ms "message_id")) "received" none
          (some [("processed_type",
            (objGet ms "type").getD (.str "unknown"))])
        simp [hasTypeAndStatus, h.1, h.2.1]
    · rfl
    · rfl
  · intro now body
    rcases body with payload | _ | _
    · rcases payload with _ | b | n | s | el | ms
      · rfl
      · rfl
      · rfl
      · rfl
      · rfl
      · rw [receive_data_obj]
        have h := fastapi_ack_fields now (objGet ms "id") "ok" none none
        simp [hasTypeAndStatus, h.1, h.2.1]
    · rfl
    · rfl
  · intro cfg gen now body
    cases cfg
    · rfl
    · rcases body with payload | _ | _
      case jsonError => rfl
      case decodeError => rfl
      case ok =>
        rcases payload with _ | b | n | s | el | ms
        · rfl
        · rfl
        · rfl
        · rfl
        · rfl
        · rcases hp : objGet ms "prompt" with _ | v
          · simp [FastapiServer.ai_prompt, dict_get, hp, hasTypeAndStatus,
              Json.field, objGet]
          · rcases v with _ | b2 | n2 | p | el2 | ms2
            · simp [FastapiServer.ai_prompt, dict_get, hp,
                hasTypeAndStatus, Json.field, objGet]
            · simp [FastapiServer.ai_prompt, dict_get, hp,
                hasTypeAndStatus, Json.field, objGet]
            · simp [FastapiServer.ai_prompt, dict_get, hp,
                hasTypeAndStatus, Json.field, objGet]
            · by_cases hpe : p = ""
              · simp [FastapiServer.ai_prompt, dict_get, hp, hpe,
                  hasTypeAndStatus, Json.field, objGet]
              · rcases hg : gen p with e | text
                · simp [FastapiServer.ai_prompt, dict_get, hp, hpe, hg,
                    hasTypeAndStatus, Json.field, objGet]
                · rw [ai_prompt_ok gen now ms p text hp hpe hg]
                  generalize (if text != "" then text
                    else "No response generated") = resp
                  have h := ai_ack_fields (objGet ms "id") resp
                    (pyIsoformat now ++ "Z")
                  simp only [List.cons_append, List.nil_append] at h
                  simp [hasTypeAndStatus, h.2.1, h.2.2]
            · simp [FastapiServer.ai_prompt, dict_get, hp,
                hasTypeAndStatus, Json.field, objGet]
            · simp [FastapiServer.ai_prompt, dict_get, hp,
                hasTypeAndStatus, Json.field, objGet]
  · intro cfg gen now p i
    cases cfg
    · rfl
    · rcases p with _ | q
      · rfl
      · by_cases hq : q = ""
        · simp [FastapiServer.ai_prompt_get, hq]
          rfl
        · rcases hg : gen q with e | text
          · simp [FastapiServer.ai_prompt_get, hq, hg, hasTypeAndStatus,
              Json.field, objGet]
          · rcases i with _ | sid
            · simp [FastapiServer.ai_prompt_get, hq, hg,
                FastapiServer.idEntry, hasTypeAndStatus, Json.field,
                objGet_append, objGet]
            · by_cases hsid : sid = "" <;>
                simp [FastapiServer.ai_prompt_get, hq, hg,
                  FastapiServer.idEntry, hsid, hasTypeAndStatus,
                  Json.field, objGet_append, objGet]
  · intro now parsed j hrep
    rcases parsed with _ | msg
    · cases hrep
      rfl
    · rcases msg with _ | b | n | s | el | ms
      · simp [UdpServer.handle_client_message, dict_get] at hrep
      · simp [UdpServer.handle_client_message, dict_get] at hrep
      · simp [UdpServer.handle_client_message, dict_get] at hrep
      · simp [UdpServer.handle_client_message, dict_get] at hrep
      · simp [UdpServer.handle_client_message, dict_get] at hrep
      · rw [handle_client_message_obj] at hrep
        cases hrep
        have h := udp_ack_fields now
          (pyOr (objGet ms "id") (objGet ms "message_id")) "ok" none
        simp [hasTypeAndStatus, h.1, h.2.1]
  · intro now
    exact ⟨rfl, rfl⟩

/-- Witness for claim C2 (amended), applying the UDP clause to the reply
sent for an unparsable datagram. -/
theorem C2_envelope_amended_witness :
    hasTypeAndStatus udpInvalidJsonReply = true :=
  C2_envelope_amended.2.2.2.2.1 sampleTime none udpInvalidJsonReply rfl

/-- Claim C8 counterexample: a caller-supplied timestamp is echoed
verbatim, so the produced timestamp can fail to parse as ISO-8601 and need
not end in Z. -/
theorem C8_verbatim_timestamp_counterexample :
    (FastapiServer.create_acknowledgment sampleTime none "ok"
        (some "later") none).field "timestamp" = some (.str "later") ∧
    parseIsoZ "later" = none ∧
    "later".data.getLast? ≠ some 'Z' :=
  ⟨rfl, rfl, by decide⟩

/-- Claim C8 (amended): both acknowledgment builders are total; a supplied
timestamp is used verbatim (even when not ISO-8601 — the amendment); when
none is supplied the generated timestamp is the current UTC instant in
ISO-8601 with a Z suffix, parses back to that instant, and ends in Z; a
falsy or empty correlation id leaves the `message_id` key out. -/
theorem C8_ack_builder_amended (now : PyDateTime) (mid : Option Json)
    (st : String) (ts : Option String)
    (data : Option (List (String × Json))) (hv : now.valid = true) :
    (∀ s, (FastapiServer.create_acknowledgment now mid st (some s)
        data).field "timestamp" = some (.str s)) ∧
    (FastapiServer.create_acknowledgment now mid st none data).field
        "timestamp" = some (.str (pyIsoformat now ++ "Z")) ∧
    parseIsoZ (pyIsoformat now ++ "Z") = some now ∧
    (pyIsoformat now ++ "Z").data.getLast? = some 'Z' ∧
    (pyTruthy mid = false →
      (FastapiServer.create_acknowledgment now mid st ts data).field
        "message_id" = none) ∧
    (∀ s, (UdpServer.create_acknowledgment now mid st (some s)).field
        "timestamp" = some (.str s)) ∧
    (UdpServer.create_acknowledgment now mid st none).field "timestamp"
        = some (.str (pyIsoformat now ++ "Z")) ∧
    (pyTruthy mid = false →
      (UdpServer.create_acknowledgment now mid st ts).field "message_id"
        = none) := by
  refine ⟨?_, ?_, parseIsoZ_pyIsoformat now hv, pyIsoformatZ_endsZ now,
    ?_, ?_, ?_, ?_⟩
  · intro s
    simpa using (fastapi_ack_fields now mid st (some s) data).2.2.1
  · simpa using (fastapi_ack_fields now mid st none data).2.2.1
  · intro hmid
    simpa [hmid] using (fastapi_ack_fields now mid st ts data).2.2.2.1
  · intro s
    simpa using (udp_ack_fields now mid st (some s)).2.2.1
  · simpa using (udp_ack_fields now mid st none).2.2.1
  · intro hmid
    simpa [hmid] using (udp_ack_fields now mid st ts).2.2.2

/-- Witness for claim C8 (amended) at a concrete valid instant. -/
theorem C8_ack_builder_amended_witness :
    parseIsoZ (pyIsoformat sampleTime ++ "Z") = some sampleTime :=
  (C8_ack_builder_amended sampleTime none "ok" none none rfl).2.2.1

/-- Claim C9 counterexample: an unparsable datagram handled twice (at two
distinct instants) gets the identical fixed error reply both times, which
carries no timestamp at all, so the two replies' timestamps do not
differ. -/
theorem C9_invalid_datagram_counterexample :
    UdpServer.handle_client_message sampleTime none
      = .reply udpInvalidJsonReply ∧
    UdpServer.handle_client_message sampleTime2 none
      = .reply udpInvalidJsonReply ∧
    udpInvalidJsonReply.field "timestamp" = none ∧
    sampleTime ≠ sampleTime2 :=
  ⟨rfl, rfl, rfl, by decide⟩

/-- Claim C9 (amended): handling a datagram that parses to a JSON object
twice, at distinct valid instants, produces two replies whose `timestamp`
fields differ and whose remaining fields coincide; an unparsable datagram
gets the fixed timestamp-free error reply both times. -/
theorem C9_udp_idempotence_amended (t1 t2 : PyDateTime)
    (members : List (String × Json)) (h1 : t1.valid = true)
    (h2 : t2.valid = true) (hne : t1 ≠ t2) :
    ∃ j1 j2,
      UdpServer.handle_client_message t1 (some (.obj members))
        = .reply j1 ∧
      UdpServer.handle_client_message t2 (some (.obj members))
        = .reply j2 ∧
      j1.field "timestamp" ≠ j2.field "timestamp" ∧
      eraseTimestamp j1 = eraseTimestamp j2 := by
  refine ⟨_, _, handle_client_message_obj t1 members,
    handle_client_message_obj t2 members, ?_, ?_⟩
  · have e1 := (udp_ack_fields t1
      (pyOr (objGet members "id") (objGet members "message_id"))
      "ok" none).2.2.1
    have e2 := (udp_ack_fields t2
      (pyOr (objGet members "id") (objGet members "message_id"))
      "ok" none).2.2.1
    rw [e1, e2]
    intro hcontra
    exact hne (pyIsoformatZ_inj t1 t2 h1 h2 (by simpa using hcontra))
  · simp [UdpServer.create_acknowledgment, eraseTimestamp,
      List.filter_append]

/-- Witness for claim C9 (amended) at two concrete distinct instants. -/
theorem C9_udp_idempotence_amended_witness :
    ∃ j1 j2,
      UdpServer.handle_client_message sampleTime (some (.obj []))
        = .reply j1 ∧
      UdpServer.handle_client_message sampleTime2 (some (.obj []))
        = .reply j2 ∧
      j1.field "timestamp" ≠ j2.field "timestamp" ∧
      eraseTimestamp j1 = eraseTimestamp j2 :=
  C9_udp_idempotence_amended sampleTime sampleTime2 [] rfl rfl (by decide)
